import Mathlib

/-!
Verification of the result-cache coordination layer in `dsp/utils/cache.py`:
the fingerprinter (`filter_keys`, `_hash`), the SQLite-backed record store
(`SQLiteCache`), and the coordinating wrapper (`sqlite_cache_wrapper`).

Modelling conventions (shallow embedding):
* Python float timestamps are modelled as rationals (`ℚ`); the claims only
  compare timestamps, never round them.  The `float("inf")` sentinel used for
  an open window end is modelled by `Option ℚ` with `none` standing for
  `float("inf")`, matching the source's explicit `end_time != float("inf")`
  checks.
* SQLite rows are modelled as a list of `Row` values; each SQL statement is
  translated to its relational semantics over that list.  `uuid.uuid4()` and
  the `CURRENT_TIMESTAMP` column default are modelled by fresh counters held
  in the `DB` state (the code relies only on their uniqueness/monotonicity).
* `hashlib.sha256(...).hexdigest()` is an external pure function of its input
  string; it is taken as an explicit function parameter `sha256_hexdigest`.
* Fallible Python code is modelled with `Except`; each raised exception is a
  constructor of `Err` (the source raises bare `Exception(...)` with distinct
  messages; the constructors record which raise site fired).
-/

namespace DspCache

/-! ### Fingerprinter: `filter_keys` (lines 25-30) and `_hash` (lines 33-52) -/

/-- `filter_keys` (cache.py lines 25-30): keeps the entries of `input_dict`
whose key is not in `keys_to_ignore`.  Python dicts preserve insertion order,
so a kwargs dict is modelled as an association list. -/
def filter_keys (input_dict : List (String × String)) (keys_to_ignore : List String) :
    List (String × String) :=
  input_dict.filter (fun p => !(keys_to_ignore.contains p.1))

/-- Comparison by key used by `sorted(kwargs.items(), key=lambda x: x[0])`
(cache.py line 40). -/
def kwLe (a b : String × String) : Prop := a.1 ≤ b.1

instance : DecidableRel kwLe := fun a b => inferInstanceAs (Decidable (a.1 ≤ b.1))

instance : IsTotal (String × String) kwLe := ⟨fun a b => le_total a.1 b.1⟩

instance : IsTrans (String × String) kwLe := ⟨fun _ _ _ h1 h2 => le_trans h1 h2⟩

/-- `sorted(kwargs.items(), key=lambda x: x[0])` (cache.py line 40): a stable
sort of the keyword pairs by key. -/
def sorted_kwargs (kwargs : List (String × String)) : List (String × String) :=
  List.insertionSort kwLe kwargs

/-- `','.join(str(arg) for arg in args)` (cache.py line 43); argument values
are modelled by their `str(...)` renderings. -/
def args_str (args : List String) : String := String.intercalate "," args

/-- `','.join(f'{key}={value}' for ...)` over the sorted kwargs
(cache.py line 44). -/
def kwargs_str (kwargs : List (String × String)) : String :=
  String.intercalate "," ((sorted_kwargs kwargs).map (fun p => p.1 ++ "=" ++ p.2))

/-- `f'{func_name}({args_str},{kwargs_str})'` (cache.py line 47). -/
def combined_str (func_name : String) (args : List String)
    (kwargs : List (String × String)) : String :=
  func_name ++ "(" ++ args_str args ++ "," ++ kwargs_str kwargs ++ ")"

/-- `_hash` (cache.py lines 33-52): SHA-256 hex digest of `combined_str`.
`sha256_hexdigest` stands for the external pure function
`lambda s: hashlib.sha256(s.encode()).hexdigest()`. -/
def _hash (sha256_hexdigest : String → String) (func_name : String)
    (args : List String) (kwargs : List (String × String)) : String :=
  sha256_hexdigest (combined_str func_name args kwargs)

/-- The four reserved keyword names removed by the wrapper before hashing and
before forwarding the call (cache.py lines 305-313). -/
def reserved_keys : List String :=
  ["worker_id", "cache_branch", "experiment_start_timestamp",
   "experiment_end_timestamp"]

/-- The keyword arguments actually forwarded to the wrapped operation after
`kwargs = filter_keys(kwargs, [...])` (cache.py lines 305-313). -/
def forwarded_kwargs (kwargs : List (String × String)) : List (String × String) :=
  filter_keys kwargs reserved_keys

/-- `function_hash = _hash(func, *args, **kwargs)` computed by the wrapper on
the already-stripped kwargs (cache.py line 316). -/
def wrapper_function_hash (sha256_hexdigest : String → String)
    (func_name : String) (args : List String)
    (kwargs : List (String × String)) : String :=
  _hash sha256_hexdigest func_name args (forwarded_kwargs kwargs)

/-! ### Record store data model (schema of `create_table_if_not_exists`,
cache.py lines 80-114) -/

/-- A value stored in the `result` BLOB column: either a pickled return value
of the wrapped operation, or the serialized traceback text of a failure. -/
inductive Stored (α : Type) where
  | val (a : α)
  | failText (s : String)
deriving DecidableEq

/-- One row of the `cache` table (cache.py lines 97-106).  `row_idx` is the
TEXT primary key produced by `uuid.uuid4()`, modelled as a fresh natural;
`insert_timestamp` is the `CURRENT_TIMESTAMP` column default, modelled as a
monotone sequence number; `timestamp` is the caller-supplied logical time;
`status` is the integer status (0 = FAILED, 1 = PENDING, 2 = COMPLETED).
The `payload` column is never written by this module and is omitted. -/
structure Row (α : Type) where
  row_idx : Nat
  branch_idx : Int
  operation_hash : String
  insert_timestamp : Nat
  timestamp : ℚ
  status : Nat
  result : Option (Stored α)
deriving DecidableEq

/-- The state of the `cache` table plus the fresh-id supplies for
`uuid.uuid4()` and `CURRENT_TIMESTAMP`. -/
structure DB (α : Type) where
  rows : List (Row α)
  next_row_idx : Nat
  next_insert_seq : Nat
deriving DecidableEq

/-- Connection state of a `SQLiteCache` instance: `__init__` (lines 59-63)
sets `self.conn = None`; only `__enter__` (lines 65-74) opens the connection
and creates the table. -/
structure CacheClient where
  connOpen : Bool
deriving DecidableEq

/-- The client produced by `SQLiteCache()` alone, as constructed by the
wrapper at cache.py line 294: `__init__` leaves `conn = None`, and the
wrapper never calls `__enter__`. -/
def SQLiteCache_init : CacheClient := ⟨false⟩

/-- The client state after `__enter__` (cache.py lines 65-74) has run:
the connection is open and the table has been ensured. -/
def entered_client : CacheClient := ⟨true⟩

/-- Exceptions raised by the modelled code.  Python raises these as
`TypeError` / `sqlite3` errors / bare `Exception(msg)`; the constructors
record the raise site:
* `connNotOpen` — any statement executed while `self.conn` is `None`;
* `pickleDumpTypeError` — `pickle.dump(result)` at line 150 (missing the
  mandatory file argument, so it raises `TypeError` unconditionally);
* `pickleLoadTypeError` — `pickle.load(row[3])` at line 249 (given raw
  bytes instead of a file object, so it raises `TypeError`);
* `sqlParamCountMismatch` — the filter-form UPDATE at lines 153-159 appends
  an ` AND timestamp <= ?` clause without extending `sql_inputs`;
* `pollTimeout` — `raise Exception("Failed to retrieve result from cache
  after polling.")` at line 356;
* `missingRecord` — `raise Exception("Cache does not exist ...")` at
  lines 377-379;
* `storedFailure` — `raise Exception(result)` at line 374;
* `reraised` — `raise exc` at line 406, carrying the wrapped operation's
  own exception message. -/
inductive Err (α : Type) where
  | connNotOpen
  | pickleDumpTypeError
  | pickleLoadTypeError
  | sqlParamCountMismatch
  | pollTimeout
  | missingRecord
  | storedFailure (r : Option (Stored α))
  | reraised (msg : String)
deriving DecidableEq

variable {α : Type}

/-- The logical-time window clause shared by every query:
`timestamp >= ?` always, and `timestamp <= ?` only when the end bound is not
`float("inf")` (cache.py lines 190-195, 227-232, 262-267). -/
def in_window (r : Row α) (start_time : ℚ) (end_time : Option ℚ) : Bool :=
  decide (start_time ≤ r.timestamp) &&
    (match end_time with
     | none => true
     | some e => decide (r.timestamp ≤ e))

/-- `pickle.dump(result)` (cache.py line 150): `pickle.dump` requires a file
object as second positional argument, so this call raises `TypeError` on
every input, before any SQL runs. -/
def pickle_dump : Stored α → Except (Err α) (Stored α) :=
  fun _ => .error .pickleDumpTypeError

/-- `pickle.load(row[3])` (cache.py lines 249, 276): `pickle.load` requires a
file object but is given the raw BLOB bytes (or `None`), so it raises
`TypeError` on every input. -/
def pickle_load : Option (Stored α) → Except (Err α) (Stored α) :=
  fun _ => .error .pickleLoadTypeError

/-! ### Record store operations (`SQLiteCache`, cache.py lines 55-278) -/

/-- `create_table_if_not_exists` (cache.py lines 80-114): `CREATE TABLE IF
NOT EXISTS` is idempotent, and a creation failure is re-raised (`raise e` at
line 112).  Only the connection precondition is visible to the model. -/
def SQLiteCache.create_table_if_not_exists (c : CacheClient) :
    Except (Err α) Unit :=
  if c.connOpen then .ok () else .error .connNotOpen

/-- The WHERE clause of `check_if_record_exists_with_status`
(cache.py lines 188-195): `operation_hash = ? AND branch_idx = ? AND
status = ? AND timestamp >= ?`, plus ` AND timestamp <= ?` when the end
bound is not `float("inf")`. -/
def check_filter (r : Row α) (operation_hash : String) (branch_idx : Int)
    (start_time : ℚ) (end_time : Option ℚ) (status : Nat) : Bool :=
  r.operation_hash == operation_hash && r.branch_idx == branch_idx &&
    r.status == status && in_window r start_time end_time

/-- `check_if_record_exists_with_status` (cache.py lines 178-207):
`SELECT COUNT(*)` over `check_filter`, returning `count > 0`.  The trailing
`ORDER BY timestamp ASC LIMIT 1` does not change the single aggregate row. -/
def SQLiteCache.check_if_record_exists_with_status (c : CacheClient)
    (db : DB α) (operation_hash : String) (branch_idx : Int)
    (start_time : ℚ) (end_time : Option ℚ) (status : Nat) :
    Except (Err α) Bool :=
  if c.connOpen then
    .ok (db.rows.any (fun r =>
      check_filter r operation_hash branch_idx start_time end_time status))
  else .error .connNotOpen

/-- The WHERE clause of `retrieve_earliest_record` (cache.py lines 225-235):
`operation_hash LIKE ? AND branch_idx = ? AND timestamp >= ?`, plus
` AND timestamp <= ?` when the end bound is finite, plus ` AND status = ?`
when a status filter is given.  `LIKE` on a lowercase-hex digest with no
wildcard characters is equality, so it is modelled as string equality. -/
def retrieve_filter (r : Row α) (function_hash : String) (cache_branch : Int)
    (range_start : ℚ) (range_end : Option ℚ) (retrieve_status : Option Nat) :
    Bool :=
  r.operation_hash == function_hash && r.branch_idx == cache_branch &&
    in_window r range_start range_end &&
    (match retrieve_status with
     | none => true
     | some st => r.status == st)

/-- The strict ordering of `ORDER BY status DESC, insert_timestamp ASC`
(cache.py line 236): `a` beats `b` when its status is higher, or its status
is equal and it was inserted strictly earlier. -/
def row_better (a b : Row α) : Bool :=
  b.status < a.status ||
    (a.status == b.status && a.insert_timestamp < b.insert_timestamp)

/-- One scan step of the `ORDER BY status DESC, insert_timestamp ASC
LIMIT 1` selection: keep the best filtered row seen so far, preferring the
earlier-scanned row on a full tie. -/
def selectStep (function_hash : String) (cache_branch : Int)
    (range_start : ℚ) (range_end : Option ℚ) (retrieve_status : Option Nat)
    (acc : Option (Row α)) (r : Row α) : Option (Row α) :=
  if retrieve_filter r function_hash cache_branch range_start range_end
      retrieve_status then
    match acc with
    | none => some r
    | some b => if row_better r b then some r else some b
  else acc

/-- The row selected by
`... ORDER BY status DESC, insert_timestamp ASC LIMIT 1`
(cache.py lines 225-244): the filtered row that no other filtered row
strictly beats. -/
def selectBest (rows : List (Row α)) (function_hash : String)
    (cache_branch : Int) (range_start : ℚ) (range_end : Option ℚ)
    (retrieve_status : Option Nat) : Option (Row α) :=
  rows.foldl
    (selectStep function_hash cache_branch range_start range_end
      retrieve_status)
    none

/-- `retrieve_earliest_record` (cache.py lines 209-252): select the best row;
`(False, None)` when no row matches, `(True, pickle.load(row[3]))` when
`return_record_result` is set, `(True, None)` otherwise. -/
def SQLiteCache.retrieve_earliest_record (c : CacheClient) (db : DB α)
    (function_hash : String) (cache_branch : Int) (range_start : ℚ)
    (range_end : Option ℚ) (retrieve_status : Option Nat)
    (return_record_result : Bool) :
    Except (Err α) (Bool × Option (Stored α)) :=
  if c.connOpen then
    match selectBest db.rows function_hash cache_branch range_start range_end
        retrieve_status with
    | none => .ok (false, none)
    | some r =>
      if return_record_result then
        match pickle_load r.result with
        | .error er => .error er
        | .ok v => .ok (true, some v)
      else .ok (true, none)
  else .error .connNotOpen

/-- The row written by `insert_operation_started` (cache.py lines 126-132):
fresh `row_idx`, the caller's `branch_idx`, `operation_hash` and `timestamp`,
status `1` (PENDING), `result` NULL, `insert_timestamp` defaulted by the
store. -/
def mk_pending_row (db : DB α) (operation_hash : String) (branch_idx : Int)
    (timestamp : ℚ) : Row α :=
  { row_idx := db.next_row_idx
    branch_idx := branch_idx
    operation_hash := operation_hash
    insert_timestamp := db.next_insert_seq
    timestamp := timestamp
    status := 1
    result := none }

/-- `insert_operation_started` (cache.py lines 117-136): INSERT a PENDING row
and return its fresh `row_idx`. -/
def SQLiteCache.insert_operation_started (c : CacheClient) (db : DB α)
    (operation_hash : String) (branch_idx : Int) (timestamp : ℚ) :
    Except (Err α) (Nat × DB α) :=
  if c.connOpen then
    .ok (db.next_row_idx,
      { rows := db.rows ++ [mk_pending_row db operation_hash branch_idx timestamp]
        next_row_idx := db.next_row_idx + 1
        next_insert_seq := db.next_insert_seq + 1 })
  else .error .connNotOpen

/-- `update_operation_status` (cache.py lines 138-175).  Line 150 executes
`result = pickle.dump(result)` before anything else, so every call raises
`TypeError` there; the remainder is translated for completeness.  In the
by-filter form with a finite end bound, lines 153-159 append an
` AND timestamp <= ?` clause without extending `sql_inputs`, so the execute
raises a parameter-count error. -/
def SQLiteCache.update_operation_status (c : CacheClient) (db : DB α)
    (operation_hash : String) (branch_idx : Int) (result : Stored α)
    (start_time : ℚ) (end_time : Option ℚ) (row_idx : Option Nat)
    (status : Nat) : Except (Err α) (DB α) :=
  match pickle_dump result with
  | .error er => .error er
  | .ok res =>
    if c.connOpen then
      match row_idx with
      | some i =>
        .ok { db with rows := db.rows.map (fun r =>
          if r.row_idx == i then { r with status := status, result := some res }
          else r) }
      | none =>
        match end_time with
        | some _ => .error .sqlParamCountMismatch
        | none =>
          .ok { db with rows := db.rows.map (fun r =>
            if r.operation_hash == operation_hash &&
                r.branch_idx == branch_idx && r.status == 1 &&
                decide (start_time ≤ r.timestamp) then
              { r with status := status, result := some res }
            else r) }
    else .error .connNotOpen

/-! ### The coordinating wrapper (`sqlite_cache_wrapper`, cache.py
lines 281-428).

The wrapper body is modelled with the reserved-keyword extraction made
explicit: `cache_branch`, `start_time` (`experiment_start_timestamp`,
default `0`), `end_time` (`experiment_end_timestamp`, default
`float("inf")` = `none`) and `function_hash` are passed as parameters, the
kwargs stripping and hashing themselves being the separate definitions
`forwarded_kwargs` and `wrapper_function_hash` above.  The wrapped operation
is modelled by its outcome `op : Except String α` (a return value, or the
message of the exception it raises); `opRuns` counts how often the wrapper
invokes it.  The store states observed by the poll loop's re-checks are
supplied by `obs` (one per iteration, modelling concurrent writers), and the
bounded poll duration `MAX_POLL_TIME / POLL_INTERVAL` by the fuel
`poll_fuel`. -/

/-- `MAX_POLL_TIME = 10` (cache.py line 21), in seconds. -/
def MAX_POLL_TIME : ℚ := 10

/-- `POLL_INTERVAL = 0.003` (cache.py line 22), in seconds. -/
def POLL_INTERVAL : ℚ := 3 / 1000

/-- `end_time < request_time` (cache.py lines 362, 376) on floats where
`end_time` may be `float("inf")` (modelled `none`), which is never `<` any
finite time. -/
def end_before (end_time : Option ℚ) (request_time : ℚ) : Bool :=
  match end_time with
  | none => false
  | some e => decide (e < request_time)

/-- `"\n".join(traceback.format_exception(*sys.exc_info()))` (cache.py
line 395): the serialized failure text.  The exact traceback rendering is
external to this module; the model keeps the exception message, which the
rendering contains. -/
def py_traceback (msg : String) : String := msg

instance {ε β : Type} [DecidableEq ε] [DecidableEq β] :
    DecidableEq (Except ε β) := fun a b =>
  match a, b with
  | .error e1, .error e2 =>
    if h : e1 = e2 then isTrue (congrArg Except.error h)
    else isFalse (fun hh => h (by injection hh))
  | .error _, .ok _ => isFalse (fun hh => Except.noConfusion hh)
  | .ok _, .error _ => isFalse (fun hh => Except.noConfusion hh)
  | .ok v1, .ok v2 =>
    if h : v1 = v2 then isTrue (congrArg Except.ok h)
    else isFalse (fun hh => h (by injection hh))

/-- Outcome of one wrapper invocation: the returned/raised value, the final
store state, and how many times the wrapped operation was invoked. -/
structure RunOut (α : Type) where
  res : Except (Err α) (Option (Stored α))
  db : DB α
  opRuns : Nat
deriving DecidableEq

/-- The polling loop (cache.py lines 340-356): while the elapsed time is
below `MAX_POLL_TIME`, re-check for a COMPLETED record in range at each
`POLL_INTERVAL` tick; retrieve and return it when found; raise the poll
timeout once the bound elapses.  `fuel` is the remaining number of
re-checks the time budget allows, `i` the iteration index into `obs`. -/
def pollLoop (c : CacheClient) (function_hash : String) (cache_branch : Int)
    (start_time : ℚ) (end_time : Option ℚ) (obs : Nat → DB α) :
    Nat → Nat → Except (Err α) (Option (Stored α))
  | 0, _ => .error .pollTimeout
  | fuel + 1, i =>
    match SQLiteCache.check_if_record_exists_with_status c (obs i)
        function_hash cache_branch start_time end_time 2 with
    | .error er => .error er
    | .ok true =>
      match SQLiteCache.retrieve_earliest_record c (obs i) function_hash
          cache_branch start_time end_time (some 2) true with
      | .error er => .error er
      | .ok p => .ok p.2
    | .ok false =>
      pollLoop c function_hash cache_branch start_time end_time obs fuel (i + 1)

/-- The tail of the wrapper after the three existence checks (cache.py
lines 376-426): the closed-window missing-record raise, then the compute
path — insert a PENDING row stamped with `request_time`, invoke the
operation, record the outcome (on failure re-raise the original exception
after the update), and on success defensively re-read the best COMPLETED
record in the window and return it. -/
def compute_branch (c : CacheClient) (op : Except String α)
    (request_time : ℚ) (cache_branch : Int) (start_time : ℚ)
    (end_time : Option ℚ) (function_hash : String) (db : DB α) : RunOut α :=
  if end_before end_time request_time then
    ⟨.error .missingRecord, db, 0⟩
  else
    match SQLiteCache.insert_operation_started c db function_hash cache_branch
        request_time with
    | .error er => ⟨.error er, db, 0⟩
    | .ok (row_idx, db1) =>
      match op with
      | .error msg =>
        match SQLiteCache.update_operation_status c db1 function_hash
            cache_branch (.failText (py_traceback msg)) start_time end_time
            (some row_idx) 0 with
        | .error er => ⟨.error er, db1, 1⟩
        | .ok db2 => ⟨.error (.reraised msg), db2, 1⟩
      | .ok v =>
        match SQLiteCache.update_operation_status c db1 function_hash
            cache_branch (.val v) start_time end_time (some row_idx) 2 with
        | .error er => ⟨.error er, db1, 1⟩
        | .ok db2 =>
          match SQLiteCache.retrieve_earliest_record c db2 function_hash
              cache_branch start_time end_time (some 2) true with
          | .error er => ⟨.error er, db2, 1⟩
          | .ok p => ⟨.ok p.2, db2, 1⟩

/-- The wrapper body given a client state (cache.py lines 318-426): check
for COMPLETED (return it), else for PENDING (poll), else for FAILED (replay
the stored failure when the window has closed), else fall through to
`compute_branch`. -/
def wrapper (c : CacheClient) (op : Except String α) (request_time : ℚ)
    (cache_branch : Int) (start_time : ℚ) (end_time : Option ℚ)
    (function_hash : String) (db : DB α) (obs : Nat → DB α)
    (poll_fuel : Nat) : RunOut α :=
  match SQLiteCache.check_if_record_exists_with_status c db function_hash
      cache_branch start_time end_time 2 with
  | .error er => ⟨.error er, db, 0⟩
  | .ok true =>
    match SQLiteCache.retrieve_earliest_record c db function_hash cache_branch
        start_time end_time (some 2) true with
    | .error er => ⟨.error er, db, 0⟩
    | .ok p => ⟨.ok p.2, db, 0⟩
  | .ok false =>
    match SQLiteCache.check_if_record_exists_with_status c db function_hash
        cache_branch start_time end_time 1 with
    | .error er => ⟨.error er, db, 0⟩
    | .ok true =>
      ⟨pollLoop c function_hash cache_branch start_time end_time obs poll_fuel 0,
       db, 0⟩
    | .ok false =>
      match SQLiteCache.check_if_record_exists_with_status c db function_hash
          cache_branch start_time end_time 0 with
      | .error er => ⟨.error er, db, 0⟩
      | .ok true =>
        if end_before end_time request_time then
          match SQLiteCache.retrieve_earliest_record c db function_hash
              cache_branch start_time end_time (some 0) true with
          | .error er => ⟨.error er, db, 0⟩
          | .ok p => ⟨.error (.storedFailure p.2), db, 0⟩
        else
          compute_branch c op request_time cache_branch start_time end_time
            function_hash db
      | .ok false =>
        compute_branch c op request_time cache_branch start_time end_time
          function_hash db

/-- One full invocation of the decorated function (cache.py line 294
onwards): the wrapper constructs its client with `SQLiteCache()` alone —
`__init__` sets `conn = None` and `__enter__` is never called — and then
runs the body. -/
def sqlite_cache_wrapper (op : Except String α) (request_time : ℚ)
    (cache_branch : Int) (start_time : ℚ) (end_time : Option ℚ)
    (function_hash : String) (db : DB α) (obs : Nat → DB α)
    (poll_fuel : Nat) : RunOut α :=
  wrapper SQLiteCache_init op request_time cache_branch start_time end_time
    function_hash db obs poll_fuel

/-- A row as mutated by the UPDATE of `update_operation_status`
(cache.py lines 154-156, 161-164): the SET clause touches only `status` and
`result`; every other column, in particular `timestamp`, is unchanged. -/
def with_status_result (r : Row α) (status : Nat)
    (result : Option (Stored α)) : Row α :=
  { r with status := status, result := result }

/-! ### Lock discipline of the store methods (cache.py lines 55-278).

`SQLiteCache` owns `self.lock = threading.Lock()` (line 61).  Per method
body, the statements run inside `with self.lock:` only in
`create_table_if_not_exists` (line 91); every other method executes its
statements under `with self.conn:` alone, which is transaction scoping, not
mutual exclusion. -/

/-- The public methods of `SQLiteCache` that touch the connection. -/
inductive StoreMethod where
  | create_table_if_not_exists
  | insert_operation_started
  | update_operation_status
  | check_if_record_exists_with_status
  | retrieve_earliest_record
  | get_cache_record
deriving DecidableEq

/-- Whether the method's body acquires `self.lock` around its statements:
true only for `create_table_if_not_exists` (cache.py line 91); the bodies of
`insert_operation_started` (lines 123-135), `update_operation_status`
(lines 166-175), `check_if_record_exists_with_status` (lines 198-207),
`retrieve_earliest_record` (lines 237-252) and `get_cache_record`
(lines 268-278) contain no `with self.lock`. -/
def acquiresStoreLock : StoreMethod → Bool
  | .create_table_if_not_exists => true
  | .insert_operation_started => false
  | .update_operation_status => false
  | .check_if_record_exists_with_status => false
  | .retrieve_earliest_record => false
  | .get_cache_record => false

/-! ### Helper lemmas -/

theorem in_window_iff (r : Row α) (s : ℚ) (e : Option ℚ) :
    in_window r s e = true ↔
      (s ≤ r.timestamp ∧ ∀ q, e = some q → r.timestamp ≤ q) := by
  cases e <;> simp [in_window]

theorem check_filter_iff (r : Row α) (fh : String) (b : Int) (s : ℚ)
    (e : Option ℚ) (st : Nat) :
    check_filter r fh b s e st = true ↔
      (r.operation_hash = fh ∧ r.branch_idx = b ∧ r.status = st ∧
        s ≤ r.timestamp ∧ ∀ q, e = some q → r.timestamp ≤ q) := by
  simp only [check_filter, Bool.and_eq_true, beq_iff_eq, in_window_iff]
  tauto

theorem retrieve_filter_some_iff (r : Row α) (fh : String) (b : Int) (s : ℚ)
    (e : Option ℚ) (st : Nat) :
    retrieve_filter r fh b s e (some st) = true ↔
      (r.operation_hash = fh ∧ r.branch_idx = b ∧ r.status = st ∧
        s ≤ r.timestamp ∧ ∀ q, e = some q → r.timestamp ≤ q) := by
  simp only [retrieve_filter, Bool.and_eq_true, beq_iff_eq, in_window_iff]
  tauto

theorem retrieve_filter_eq_false_of_in_window (r : Row α) (fh : String)
    (b : Int) (s : ℚ) (e : Option ℚ) (st? : Option Nat)
    (hw : in_window r s e = false) :
    retrieve_filter r fh b s e st? = false := by
  simp [retrieve_filter, hw]

theorem check_eq_ok_false (db : DB α) (fh : String) (b : Int) (s : ℚ)
    (e : Option ℚ) (st : Nat)
    (h : ∀ r ∈ db.rows, check_filter r fh b s e st = false) :
    SQLiteCache.check_if_record_exists_with_status entered_client db fh b s e
      st = .ok false := by
  simp only [SQLiteCache.check_if_record_exists_with_status, entered_client,
    if_true, Except.ok.injEq]
  rw [List.any_eq_false]
  intro r hr
  simp [h r hr]

theorem row_better_iff (a b : Row α) :
    row_better a b = true ↔
      (b.status < a.status ∨
        (a.status = b.status ∧ a.insert_timestamp < b.insert_timestamp)) := by
  simp [row_better, Bool.or_eq_true, Bool.and_eq_true]

/-- `a` is at least as good as `b` in the `ORDER BY status DESC,
insert_timestamp ASC` ordering. -/
def BeatsOrTies (a b : Row α) : Prop :=
  b.status ≤ a.status ∧
    (b.status = a.status → a.insert_timestamp ≤ b.insert_timestamp)

theorem beats_refl (a : Row α) : BeatsOrTies a a :=
  ⟨le_refl _, fun _ => le_refl _⟩

theorem beats_of_better (r b z : Row α) (h1 : row_better r b = true)
    (h2 : BeatsOrTies b z) : BeatsOrTies r z := by
  rw [row_better_iff] at h1
  obtain ⟨hz1, hz2⟩ := h2
  rcases h1 with h | ⟨heq, hins⟩
  · exact ⟨by omega, fun he => by omega⟩
  · refine ⟨by omega, fun he => ?_⟩
    have := hz2 (by omega)
    omega

theorem beats_of_not_better (r b : Row α) (h : row_better r b = false) :
    BeatsOrTies b r := by
  have h2 : ¬ (row_better r b = true) := by simp [h]
  rw [row_better_iff] at h2
  push_neg at h2
  obtain ⟨ha, hb⟩ := h2
  refine ⟨by omega, fun he => ?_⟩
  have := hb he
  omega

theorem selectBest_go_spec (fh : String) (cb : Int) (s : ℚ) (e : Option ℚ)
    (st? : Option Nat) :
    ∀ (rows : List (Row α)) (acc : Option (Row α)) (x : Row α),
      rows.foldl (selectStep fh cb s e st?) acc = some x →
      ((∀ z : Row α, (∃ y, acc = some y ∧ BeatsOrTies y z) → BeatsOrTies x z) ∧
       (∀ r' ∈ rows, retrieve_filter r' fh cb s e st? = true →
          BeatsOrTies x r') ∧
       (acc = some x ∨ (retrieve_filter x fh cb s e st? = true ∧ x ∈ rows)))
  | [], acc, x, hx => by
    simp only [List.foldl_nil] at hx
    refine ⟨fun z hz => ?_, fun r' hr' => absurd hr' (List.not_mem_nil r'),
      Or.inl hx⟩
    obtain ⟨y, hy, hbz⟩ := hz
    rw [hx] at hy
    exact (Option.some.inj hy) ▸ hbz
  | r :: rows, acc, x, hx => by
    rw [List.foldl_cons] at hx
    obtain ⟨ih1, ih2, ih3⟩ := selectBest_go_spec fh cb s e st? rows _ x hx
    by_cases hf : retrieve_filter r fh cb s e st? = true
    · cases acc with
      | none =>
        have hstep : selectStep fh cb s e st? none r = some r := by
          simp [selectStep, hf]
        rw [hstep] at ih1 ih3
        refine ⟨fun z hz => ?_, fun r' hr' hfr' => ?_, ?_⟩
        · obtain ⟨y, hy, _⟩ := hz
          exact absurd hy (Option.noConfusion)
        · rcases List.mem_cons.mp hr' with h | h
          · rw [h]
            exact ih1 r ⟨r, rfl, beats_refl r⟩
          · exact ih2 r' h hfr'
        · rcases ih3 with h | ⟨hfx, hmx⟩
          · exact Or.inr ⟨(Option.some.inj h) ▸ hf, (Option.some.inj h) ▸
              List.mem_cons_self r rows⟩
          · exact Or.inr ⟨hfx, List.mem_cons_of_mem r hmx⟩
      | some bb =>
        by_cases hbet : row_better r bb = true
        · have hstep : selectStep fh cb s e st? (some bb) r = some r := by
            simp [selectStep, hf, hbet]
          rw [hstep] at ih1 ih3
          refine ⟨fun z hz => ?_, fun r' hr' hfr' => ?_, ?_⟩
          · obtain ⟨y, hy, hbz⟩ := hz
            have hybb : bb = y := Option.some.inj hy
            exact ih1 z ⟨r, rfl, beats_of_better r bb z hbet (hybb ▸ hbz)⟩
          · rcases List.mem_cons.mp hr' with h | h
            · rw [h]
              exact ih1 r ⟨r, rfl, beats_refl r⟩
            · exact ih2 r' h hfr'
          · rcases ih3 with h | ⟨hfx, hmx⟩
            · exact Or.inr ⟨(Option.some.inj h) ▸ hf, (Option.some.inj h) ▸
                List.mem_cons_self r rows⟩
            · exact Or.inr ⟨hfx, List.mem_cons_of_mem r hmx⟩
        · have hbet' : row_better r bb = false := by
            simpa using hbet
          have hstep : selectStep fh cb s e st? (some bb) r = some bb := by
            simp [selectStep, hf, hbet']
          rw [hstep] at ih1 ih3
          refine ⟨fun z hz => ?_, fun r' hr' hfr' => ?_, ?_⟩
          · obtain ⟨y, hy, hbz⟩ := hz
            have hybb : bb = y := Option.some.inj hy
            exact ih1 z ⟨bb, rfl, hybb ▸ hbz⟩
          · rcases List.mem_cons.mp hr' with h | h
            · rw [h]
              exact ih1 r ⟨bb, rfl, beats_of_not_better r bb hbet'⟩
            · exact ih2 r' h hfr'
          · rcases ih3 with h | ⟨hfx, hmx⟩
            · exact Or.inl h
            · exact Or.inr ⟨hfx, List.mem_cons_of_mem r hmx⟩
    · have hf' : retrieve_filter r fh cb s e st? = false := by simpa using hf
      have hstep : selectStep fh cb s e st? acc r = acc := by
        simp [selectStep, hf']
      rw [hstep] at ih1 ih3
      refine ⟨ih1, fun r' hr' hfr' => ?_, ?_⟩
      · rcases List.mem_cons.mp hr' with h | h
        · rw [h] at hfr'
          exact absurd hfr' (by simp [hf'])
        · exact ih2 r' h hfr'
      · rcases ih3 with h | ⟨hfx, hmx⟩
        · exact Or.inl h
        · exact Or.inr ⟨hfx, List.mem_cons_of_mem r hmx⟩

theorem selectBest_some_spec (rows : List (Row α)) (fh : String) (cb : Int)
    (s : ℚ) (e : Option ℚ) (st? : Option Nat) (x : Row α)
    (h : selectBest rows fh cb s e st? = some x) :
    retrieve_filter x fh cb s e st? = true ∧ x ∈ rows ∧
      ∀ r' ∈ rows, retrieve_filter r' fh cb s e st? = true →
        (r'.status ≤ x.status ∧
          (r'.status = x.status → x.insert_timestamp ≤ r'.insert_timestamp)) := by
  obtain ⟨h1, h2, h3⟩ := selectBest_go_spec fh cb s e st? rows none x h
  rcases h3 with h3 | ⟨hfx, hmx⟩
  · exact absurd h3 (Option.noConfusion)
  · exact ⟨hfx, hmx, fun r' hr' hfr' => h2 r' hr' hfr'⟩

theorem selectBest_none_go (fh : String) (cb : Int) (s : ℚ) (e : Option ℚ)
    (st? : Option Nat) :
    ∀ (rows : List (Row α)) (acc : Option (Row α)),
      rows.foldl (selectStep fh cb s e st?) acc = none →
      acc = none ∧ ∀ r ∈ rows, retrieve_filter r fh cb s e st? = false
  | [], acc, h => ⟨by simpa using h, by simp⟩
  | r :: rows, acc, h => by
    rw [List.foldl_cons] at h
    obtain ⟨h1, h2⟩ := selectBest_none_go fh cb s e st? rows _ h
    by_cases hf : retrieve_filter r fh cb s e st? = true
    · exfalso
      cases acc with
      | none => simp [selectStep, hf] at h1
      | some bb =>
        by_cases hbet : row_better r bb = true <;>
          simp [selectStep, hf, hbet] at h1
    · have hf' : retrieve_filter r fh cb s e st? = false := by simpa using hf
      have hstep : selectStep fh cb s e st? acc r = acc := by
        simp [selectStep, hf']
      rw [hstep] at h1
      refine ⟨h1, fun r' hr' => ?_⟩
      rcases List.mem_cons.mp hr' with hh | hh
      · exact hh ▸ hf'
      · exact h2 r' hh

theorem selectBest_none_of_all_false (fh : String) (cb : Int) (s : ℚ)
    (e : Option ℚ) (st? : Option Nat) :
    ∀ (rows : List (Row α)),
      (∀ r ∈ rows, retrieve_filter r fh cb s e st? = false) →
      rows.foldl (selectStep fh cb s e st?) none = none
  | [], _ => by simp
  | r :: rows, h => by
    rw [List.foldl_cons]
    have hf := h r (List.mem_cons_self r rows)
    have hstep : selectStep fh cb s e st? none r = none := by
      simp [selectStep, hf]
    rw [hstep]
    exact selectBest_none_of_all_false fh cb s e st? rows
      (fun r' hr' => h r' (List.mem_cons_of_mem r hr'))

theorem selectBest_none_iff (rows : List (Row α)) (fh : String) (cb : Int)
    (s : ℚ) (e : Option ℚ) (st? : Option Nat) :
    selectBest rows fh cb s e st? = none ↔
      ∀ r ∈ rows, retrieve_filter r fh cb s e st? = false := by
  constructor
  · intro h
    exact (selectBest_none_go fh cb s e st? rows none h).2
  · intro h
    exact selectBest_none_of_all_false fh cb s e st? rows h

theorem selectBest_append_unfiltered (rows : List (Row α)) (r : Row α)
    (fh : String) (cb : Int) (s : ℚ) (e : Option ℚ) (st? : Option Nat)
    (h : retrieve_filter r fh cb s e st? = false) :
    selectBest (rows ++ [r]) fh cb s e st? = selectBest rows fh cb s e st? := by
  unfold selectBest
  rw [List.foldl_append]
  simp [selectStep, h]

/-! ### Claims -/

/-- C2: the claim states that every invocation of the wrapped operation
opens/creates the backing store and ensures the cache table before any query
or write.  In the code this fails: the wrapper constructs its client with
`SQLiteCache()` alone (cache.py line 294), whose `__init__` leaves
`conn = None`; `__enter__` — the only place that opens the connection and
runs `create_table_if_not_exists` — is never called.  Consequently every
invocation fails at its very first store access with the connection unopened,
for all inputs, and the wrapped operation is never invoked. -/
theorem c2_store_never_opened_before_use (α : Type) (op : Except String α)
    (request_time : ℚ) (cache_branch : Int) (start_time : ℚ)
    (end_time : Option ℚ) (function_hash : String) (db : DB α)
    (obs : Nat → DB α) (poll_fuel : Nat) :
    SQLiteCache_init.connOpen = false ∧
      sqlite_cache_wrapper op request_time cache_branch start_time end_time
        function_hash db obs poll_fuel = ⟨.error .connNotOpen, db, 0⟩ :=
  ⟨rfl, rfl⟩

/-- C3 counterexample: the claim states that every read/modify store
operation is serialized through the store's single mutex; but the body of
`insert_operation_started` (cache.py lines 123-135) executes its INSERT
without acquiring `self.lock`. -/
theorem c3_insert_not_serialized_by_lock :
    acquiresStoreLock StoreMethod.insert_operation_started = false := rfl

/-- C3 amended: only `create_table_if_not_exists` serializes its statements
through the store's mutex (`with self.lock`, cache.py line 91); insert,
status update, existence check and retrieval all execute on the shared
connection without acquiring it. -/
theorem c3_only_table_creation_locked (m : StoreMethod) :
    acquiresStoreLock m = true ↔ m = StoreMethod.create_table_if_not_exists := by
  cases m <;> decide

/-- C1: the claim states that two invocations with an open window execute
the operation once and both return the same result.  On the code this fails
even granting an open connection (the missing `__enter__` is claim C2's
subject): the first invocation computes, then crashes inside
`update_operation_status` at `pickle.dump(result)` (TypeError: no file
argument) and returns nothing, leaving the record PENDING; the second
invocation then finds the PENDING record and polls until the poll timeout.
Neither invocation returns a result. -/
theorem c1_idempotence_fails_on_both_calls :
    (wrapper entered_client (Except.ok (42 : Nat)) 1 0 0 none "h"
        ⟨[], 0, 0⟩ (fun _ => ⟨[], 0, 0⟩) 3).res = .error .pickleDumpTypeError ∧
    (wrapper entered_client (Except.ok (42 : Nat)) 1 0 0 none "h"
        ⟨[], 0, 0⟩ (fun _ => ⟨[], 0, 0⟩) 3).opRuns = 1 ∧
    (wrapper entered_client (Except.ok (42 : Nat)) 2 0 0 none "h"
        (wrapper entered_client (Except.ok (42 : Nat)) 1 0 0 none "h"
          ⟨[], 0, 0⟩ (fun _ => ⟨[], 0, 0⟩) 3).db
        (fun _ => (wrapper entered_client (Except.ok (42 : Nat)) 1 0 0 none "h"
          ⟨[], 0, 0⟩ (fun _ => ⟨[], 0, 0⟩) 3).db) 3).res = .error .pollTimeout ∧
    (wrapper entered_client (Except.ok (42 : Nat)) 2 0 0 none "h"
        (wrapper entered_client (Except.ok (42 : Nat)) 1 0 0 none "h"
          ⟨[], 0, 0⟩ (fun _ => ⟨[], 0, 0⟩) 3).db
        (fun _ => (wrapper entered_client (Except.ok (42 : Nat)) 1 0 0 none "h"
          ⟨[], 0, 0⟩ (fun _ => ⟨[], 0, 0⟩) 3).db) 3).opRuns = 0 := by
  decide

/-- C4: the claim states that a failure of the wrapped operation is caught,
persisted as a terminal FAILED record, and the original failure re-raised.
On the code (granting an open connection) this fails: the except-branch's
`update_operation_status` crashes at `pickle.dump(result)` before the
UPDATE, so the record stays PENDING (status 1) and the propagated exception
is the `TypeError` from `pickle.dump`, not the original failure — which is
therefore swallowed. -/
theorem c4_failure_not_persisted_and_original_lost :
    (wrapper entered_client (Except.error "boom" : Except String Nat) 1 0 0
        none "h" ⟨[], 0, 0⟩ (fun _ => ⟨[], 0, 0⟩) 3).res
      = .error .pickleDumpTypeError ∧
    (wrapper entered_client (Except.error "boom" : Except String Nat) 1 0 0
        none "h" ⟨[], 0, 0⟩ (fun _ => ⟨[], 0, 0⟩) 3).opRuns = 1 ∧
    ((wrapper entered_client (Except.error "boom" : Except String Nat) 1 0 0
        none "h" ⟨[], 0, 0⟩ (fun _ => ⟨[], 0, 0⟩) 3).db).rows.map Row.status
      = [1] ∧
    (wrapper entered_client (Except.error "boom" : Except String Nat) 1 0 0
        none "h" ⟨[], 0, 0⟩ (fun _ => ⟨[], 0, 0⟩) 3).res
      ≠ .error (.reraised "boom") := by
  decide

/-- C6: the claim states that with a PENDING record in the window and no
COMPLETED one, the invocation never runs the operation, polls, and either
returns the COMPLETED record's result once it appears or raises the poll
timeout after the bound.  The never-run and bounded-timeout parts hold
(first two conjuncts: a permanently PENDING record makes the poll loop
exhaust its budget with the operation never invoked), but the return-once-
found part fails on the code: when a COMPLETED record appears during
polling (third conjunct, at poll iteration 0), its retrieval calls
`pickle.load` on the raw result bytes and raises `TypeError` instead of
returning the stored value 42. -/
theorem c6_polling_found_result_crashes_in_load :
    (wrapper entered_client (Except.ok (7 : Nat)) 2 0 0 none "h"
        ⟨[⟨0, 0, "h", 0, 1, 1, none⟩], 1, 1⟩
        (fun _ => ⟨[⟨0, 0, "h", 0, 1, 1, none⟩], 1, 1⟩) 3).res
      = .error .pollTimeout ∧
    (wrapper entered_client (Except.ok (7 : Nat)) 2 0 0 none "h"
        ⟨[⟨0, 0, "h", 0, 1, 1, none⟩], 1, 1⟩
        (fun _ => ⟨[⟨0, 0, "h", 0, 1, 1, none⟩], 1, 1⟩) 3).opRuns = 0 ∧
    (wrapper entered_client (Except.ok (7 : Nat)) 2 0 0 none "h"
        ⟨[⟨0, 0, "h", 0, 1, 1, none⟩], 1, 1⟩
        (fun _ => ⟨[⟨0, 0, "h", 0, 1, 1, none⟩,
          ⟨1, 0, "h", 1, 1, 2, some (.val 42)⟩], 2, 2⟩) 3).res
      = .error .pickleLoadTypeError ∧
    (wrapper entered_client (Except.ok (7 : Nat)) 2 0 0 none "h"
        ⟨[⟨0, 0, "h", 0, 1, 1, none⟩], 1, 1⟩
        (fun _ => ⟨[⟨0, 0, "h", 0, 1, 1, none⟩,
          ⟨1, 0, "h", 1, 1, 2, some (.val 42)⟩], 2, 2⟩) 3).opRuns = 0 := by
  decide

/-- C8: the claim states that with only a FAILED record in the window —
closed window (`end < now`): the stored failure is retrieved and re-raised
carrying the original failure text, without invoking the operation; open
window (`end ≥ now`): the invocation recomputes.  The recompute half holds
(last conjunct: the operation runs), but the replay half fails on the code:
retrieving the stored failure calls `pickle.load` on the raw bytes and
raises `TypeError` (first conjunct), so the raised error does not carry the
stored failure text "boom" (third conjunct); the operation is still never
invoked there (second conjunct). -/
theorem c8_failure_replay_crashes_in_load_but_reopen_recomputes :
    (wrapper entered_client (Except.ok (7 : Nat)) 3 0 0 (some 2) "h"
        ⟨[⟨0, 0, "h", 0, 1, 0, some (.failText "boom")⟩], 1, 1⟩
        (fun _ => ⟨[⟨0, 0, "h", 0, 1, 0, some (.failText "boom")⟩], 1, 1⟩) 3).res
      = .error .pickleLoadTypeError ∧
    (wrapper entered_client (Except.ok (7 : Nat)) 3 0 0 (some 2) "h"
        ⟨[⟨0, 0, "h", 0, 1, 0, some (.failText "boom")⟩], 1, 1⟩
        (fun _ => ⟨[⟨0, 0, "h", 0, 1, 0, some (.failText "boom")⟩], 1, 1⟩)
        3).opRuns = 0 ∧
    (wrapper entered_client (Except.ok (7 : Nat)) 3 0 0 (some 2) "h"
        ⟨[⟨0, 0, "h", 0, 1, 0, some (.failText "boom")⟩], 1, 1⟩
        (fun _ => ⟨[⟨0, 0, "h", 0, 1, 0, some (.failText "boom")⟩], 1, 1⟩) 3).res
      ≠ .error (.storedFailure (some (.failText "boom"))) ∧
    (wrapper entered_client (Except.ok (7 : Nat)) 3 0 0 (some 5) "h"
        ⟨[⟨0, 0, "h", 0, 1, 0, some (.failText "boom")⟩], 1, 1⟩
        (fun _ => ⟨[⟨0, 0, "h", 0, 1, 0, some (.failText "boom")⟩], 1, 1⟩)
        3).opRuns = 1 := by
  decide

/-- C7: if no record for the fingerprint and branch lies within the window
and the window's end bound is strictly before the request time, the
invocation raises the missing-record error, leaves the store unchanged, and
never invokes the underlying operation.  (The store connection is taken as
opened; the wrapper's failure to open it is claim C2's subject.) -/
theorem c7_closed_window_missing_record (α : Type) (op : Except String α)
    (request_time : ℚ) (cache_branch : Int) (start_time : ℚ)
    (end_time : Option ℚ) (function_hash : String) (db : DB α)
    (obs : Nat → DB α) (poll_fuel : Nat)
    (hnone : ∀ r ∈ db.rows, ¬(r.operation_hash = function_hash ∧
      r.branch_idx = cache_branch ∧ in_window r start_time end_time = true))
    (hclosed : end_before end_time request_time = true) :
    wrapper entered_client op request_time cache_branch start_time end_time
      function_hash db obs poll_fuel = ⟨.error .missingRecord, db, 0⟩ := by
  have hfilter : ∀ (st : Nat), ∀ r ∈ db.rows,
      check_filter r function_hash cache_branch start_time end_time st
        = false := by
    intro st r hr
    rcases hcf : check_filter r function_hash cache_branch start_time end_time
      st with _ | _
    · rfl
    · exfalso
      have h2 := (check_filter_iff r function_hash cache_branch start_time
        end_time st).mp hcf
      exact hnone r hr ⟨h2.1, h2.2.1,
        (in_window_iff r start_time end_time).mpr ⟨h2.2.2.2.1, h2.2.2.2.2⟩⟩
  have hc2 := check_eq_ok_false db function_hash cache_branch start_time
    end_time 2 (hfilter 2)
  have hc1 := check_eq_ok_false db function_hash cache_branch start_time
    end_time 1 (hfilter 1)
  have hc0 := check_eq_ok_false db function_hash cache_branch start_time
    end_time 0 (hfilter 0)
  unfold wrapper
  rw [hc2, hc1, hc0]
  unfold compute_branch
  rw [hclosed]
  rfl

/-- Witness for C7 at a concrete input: one record outside the window
(logical time 2 against window [0, 1]), request time 3. -/
theorem c7_witness :
    wrapper entered_client (Except.ok (0 : Nat)) 3 0 0 (some 1) "h"
        ⟨[⟨0, 0, "h", 0, 2, 2, none⟩], 1, 1⟩ (fun _ => ⟨[], 0, 0⟩) 3
      = ⟨.error .missingRecord, ⟨[⟨0, 0, "h", 0, 2, 2, none⟩], 1, 1⟩, 0⟩ :=
  c7_closed_window_missing_record Nat (Except.ok 0) 3 0 0 (some 1) "h"
    ⟨[⟨0, 0, "h", 0, 2, 2, none⟩], 1, 1⟩ (fun _ => ⟨[], 0, 0⟩) 3
    (by decide) (by decide)

/-- C10: on the compute path (no COMPLETED or PENDING record in the window,
window end not in the past) the new PENDING record is stamped with the
wall-clock request time (`insert_operation_started` is called with
`request_time`, cache.py lines 382-384), the operation runs once, and —
whenever the window's start bound is strictly greater than the request
time — the inserted record lies outside the queried window, so the
post-compute re-read's query (the best COMPLETED record in the window,
lines 417-425) returns the same answer whether or not the just-written row,
under any later status/result mutation, is in the table. -/
theorem c10_compute_path_stamped_with_request_time (α : Type)
    (op : Except String α) (request_time : ℚ) (cache_branch : Int)
    (start_time : ℚ) (end_time : Option ℚ) (function_hash : String)
    (db : DB α) (obs : Nat → DB α) (poll_fuel : Nat) (st : Nat)
    (res : Option (Stored α))
    (h2 : db.rows.any (fun r => check_filter r function_hash cache_branch
      start_time end_time 2) = false)
    (h1 : db.rows.any (fun r => check_filter r function_hash cache_branch
      start_time end_time 1) = false)
    (hopen : end_before end_time request_time = false)
    (hs : request_time < start_time) :
    (wrapper entered_client op request_time cache_branch start_time end_time
        function_hash db obs poll_fuel).db.rows
      = db.rows ++ [mk_pending_row db function_hash cache_branch request_time] ∧
    (wrapper entered_client op request_time cache_branch start_time end_time
        function_hash db obs poll_fuel).opRuns = 1 ∧
    in_window (mk_pending_row db function_hash cache_branch request_time)
      start_time end_time = false ∧
    selectBest (db.rows ++ [with_status_result
        (mk_pending_row db function_hash cache_branch request_time) st res])
      function_hash cache_branch start_time end_time (some 2)
      = selectBest db.rows function_hash cache_branch start_time end_time
          (some 2) := by
  have hnle : ¬ (start_time ≤ request_time) := not_le.mpr hs
  have hc2 : SQLiteCache.check_if_record_exists_with_status entered_client db
      function_hash cache_branch start_time end_time 2 = .ok false := by
    simp [SQLiteCache.check_if_record_exists_with_status, entered_client, h2]
  have hc1 : SQLiteCache.check_if_record_exists_with_status entered_client db
      function_hash cache_branch start_time end_time 1 = .ok false := by
    simp [SQLiteCache.check_if_record_exists_with_status, entered_client, h1]
  have hwrap : wrapper entered_client op request_time cache_branch start_time
      end_time function_hash db obs poll_fuel
      = compute_branch entered_client op request_time cache_branch start_time
          end_time function_hash db := by
    unfold wrapper
    rw [hc2, hc1]
    cases hany : db.rows.any (fun r => check_filter r function_hash
      cache_branch start_time end_time 0) with
    | false =>
      have hc0 : SQLiteCache.check_if_record_exists_with_status entered_client
          db function_hash cache_branch start_time end_time 0 = .ok false := by
        simp [SQLiteCache.check_if_record_exists_with_status, entered_client,
          hany]
      rw [hc0]
    | true =>
      have hc0 : SQLiteCache.check_if_record_exists_with_status entered_client
          db function_hash cache_branch start_time end_time 0 = .ok true := by
        simp [SQLiteCache.check_if_record_exists_with_status, entered_client,
          hany]
      rw [hc0]
      show (if end_before end_time request_time = true then _ else _) = _
      rw [hopen]
      rfl
  have hcb1 : (compute_branch entered_client op request_time cache_branch
      start_time end_time function_hash db).db.rows
      = db.rows ++ [mk_pending_row db function_hash cache_branch
          request_time] := by
    unfold compute_branch
    rw [hopen]
    cases op <;> rfl
  have hcb2 : (compute_branch entered_client op request_time cache_branch
      start_time end_time function_hash db).opRuns = 1 := by
    unfold compute_branch
    rw [hopen]
    cases op <;> rfl
  have hwin : in_window (mk_pending_row db function_hash cache_branch
      request_time) start_time end_time = false := by
    simp [in_window, mk_pending_row, hnle]
  have hwin2 : in_window (with_status_result (mk_pending_row db function_hash
      cache_branch request_time) st res) start_time end_time = false := by
    simp [in_window, mk_pending_row, with_status_result, hnle]
  refine ⟨by rw [hwrap, hcb1], by rw [hwrap, hcb2], hwin, ?_⟩
  exact selectBest_append_unfiltered db.rows _ function_hash cache_branch
    start_time end_time (some 2)
    (retrieve_filter_eq_false_of_in_window _ _ _ _ _ _ hwin2)

/-- Witness for C10 at a concrete input: empty store, request time 1,
window start 2, open end. -/
theorem c10_witness :
    (wrapper entered_client (Except.ok (5 : Nat)) 1 0 2 none "h" ⟨[], 0, 0⟩
        (fun _ => ⟨[], 0, 0⟩) 3).db.rows
      = [] ++ [mk_pending_row ⟨[], 0, 0⟩ "h" 0 1] ∧
    (wrapper entered_client (Except.ok (5 : Nat)) 1 0 2 none "h" ⟨[], 0, 0⟩
        (fun _ => ⟨[], 0, 0⟩) 3).opRuns = 1 ∧
    in_window (mk_pending_row (⟨[], 0, 0⟩ : DB Nat) "h" 0 1) 2 none = false ∧
    selectBest ([] ++ [with_status_result (mk_pending_row (⟨[], 0, 0⟩ : DB Nat)
        "h" 0 1) 2 (some (.val 5))]) "h" 0 2 none (some 2)
      = selectBest [] "h" 0 2 none (some 2) :=
  c10_compute_path_stamped_with_request_time Nat (Except.ok 5) 1 0 2 none "h"
    ⟨[], 0, 0⟩ (fun _ => ⟨[], 0, 0⟩) 3 2 (some (.val 5))
    (by decide) (by decide) (by decide) (by decide)

/-- C5: a record passes the existence-check and retrieval filters iff its
fingerprint, branch and status match and its logical time lies in the window
(`s ≤ timestamp`, and `timestamp ≤ e` only when the end is finite; an
infinite end imposes no upper bound); in particular a record with logical
time 5 matches window [0, 10] and not window [6, 10]; the existence check
reports true iff some row passes its filter; and the retrieval's selected
row passes the filter and, among all filtered rows, has maximal status
(2 = COMPLETED over 1 = PENDING over 0 = FAILED) and, on equal status,
minimal insertion timestamp — with no filtered row at all, the selection is
empty. -/
theorem c5_retrieval_filtering_and_ranking :
    (∀ (α : Type) (r : Row α) (fh : String) (b : Int) (s : ℚ) (e : Option ℚ)
        (st : Nat),
      check_filter r fh b s e st = true ↔
        (r.operation_hash = fh ∧ r.branch_idx = b ∧ r.status = st ∧
          s ≤ r.timestamp ∧ ∀ q, e = some q → r.timestamp ≤ q)) ∧
    (∀ (α : Type) (r : Row α) (fh : String) (b : Int) (s : ℚ) (e : Option ℚ)
        (st : Nat),
      retrieve_filter r fh b s e (some st) = true ↔
        (r.operation_hash = fh ∧ r.branch_idx = b ∧ r.status = st ∧
          s ≤ r.timestamp ∧ ∀ q, e = some q → r.timestamp ≤ q)) ∧
    (∀ (α : Type) (db : DB α) (fh : String) (b : Int) (s : ℚ) (e : Option ℚ)
        (st : Nat),
      SQLiteCache.check_if_record_exists_with_status entered_client db fh b s
          e st = .ok true ↔
        ∃ r ∈ db.rows, check_filter r fh b s e st = true) ∧
    check_filter (⟨0, 0, "h", 0, 5, 2, none⟩ : Row Nat) "h" 0 0 (some 10) 2
      = true ∧
    check_filter (⟨0, 0, "h", 0, 5, 2, none⟩ : Row Nat) "h" 0 6 (some 10) 2
      = false ∧
    (∀ (α : Type) (rows : List (Row α)) (fh : String) (b : Int) (s : ℚ)
        (e : Option ℚ) (st? : Option Nat) (x : Row α),
      selectBest rows fh b s e st? = some x →
        retrieve_filter x fh b s e st? = true ∧ x ∈ rows ∧
          ∀ r' ∈ rows, retrieve_filter r' fh b s e st? = true →
            (r'.status ≤ x.status ∧ (r'.status = x.status →
              x.insert_timestamp ≤ r'.insert_timestamp))) ∧
    (∀ (α : Type) (rows : List (Row α)) (fh : String) (b : Int) (s : ℚ)
        (e : Option ℚ) (st? : Option Nat),
      selectBest rows fh b s e st? = none ↔
        ∀ r ∈ rows, retrieve_filter r fh b s e st? = false) := by
  refine ⟨fun α r fh b s e st => check_filter_iff r fh b s e st,
    fun α r fh b s e st => retrieve_filter_some_iff r fh b s e st,
    fun α db fh b s e st => ?_,
    by decide, by decide,
    fun α rows fh b s e st? x h => selectBest_some_spec rows fh b s e st? x h,
    fun α rows fh b s e st? => selectBest_none_iff rows fh b s e st?⟩
  simp [SQLiteCache.check_if_record_exists_with_status, entered_client,
    List.any_eq_true]

/-- Witness for C5 at a concrete input: among a PENDING row and a COMPLETED
row both in the window, the selection is the COMPLETED row, it passes the
filter, and the PENDING row's status does not exceed it. -/
theorem c5_witness :
    selectBest [(⟨0, 0, "h", 0, 1, 1, none⟩ : Row Nat),
        ⟨1, 0, "h", 1, 1, 2, some (.val 9)⟩] "h" 0 0 none none
      = some ⟨1, 0, "h", 1, 1, 2, some (.val 9)⟩ ∧
    retrieve_filter (⟨1, 0, "h", 1, 1, 2, some (.val 9)⟩ : Row Nat) "h" 0 0
      none none = true ∧
    (⟨0, 0, "h", 0, 1, 1, none⟩ : Row Nat).status
      ≤ (⟨1, 0, "h", 1, 1, 2, some (.val 9)⟩ : Row Nat).status := by
  refine ⟨by decide, ?_, ?_⟩
  · exact (c5_retrieval_filtering_and_ranking.2.2.2.2.2.1 Nat
      [⟨0, 0, "h", 0, 1, 1, none⟩, ⟨1, 0, "h", 1, 1, 2, some (.val 9)⟩]
      "h" 0 0 none none ⟨1, 0, "h", 1, 1, 2, some (.val 9)⟩ (by decide)).1
  · exact ((c5_retrieval_filtering_and_ranking.2.2.2.2.2.1 Nat
      [⟨0, 0, "h", 0, 1, 1, none⟩, ⟨1, 0, "h", 1, 1, 2, some (.val 9)⟩]
      "h" 0 0 none none ⟨1, 0, "h", 1, 1, 2, some (.val 9)⟩ (by decide)).2.2
      ⟨0, 0, "h", 0, 1, 1, none⟩ (by decide) (by decide)).1

/-- C9: the fingerprint is a pure deterministic function whose value does
not depend on the order in which keyword arguments were supplied (two
keyword maps equal up to permutation, with no duplicate keys, hash
identically, for any digest function); the entries surviving the reserved-key
stripping never carry a reserved key; and supplying a reserved keyword
(worker id, branch selector, or either timerange bound) changes neither the
fingerprint the wrapper computes nor the keyword set forwarded to the
wrapped operation. -/
theorem c9_fingerprint_determinism_and_stripping :
    (∀ (sha256_hexdigest : String → String) (func_name : String)
        (args : List String) (kw1 kw2 : List (String × String)),
      kw1.Perm kw2 → (kw1.map Prod.fst).Nodup →
      _hash sha256_hexdigest func_name args kw1
        = _hash sha256_hexdigest func_name args kw2) ∧
    (∀ (kwargs : List (String × String)),
      (forwarded_kwargs kwargs).all
        (fun p => !(reserved_keys.contains p.1)) = true) ∧
    (∀ (sha256_hexdigest : String → String) (func_name : String)
        (args : List String) (kwargs : List (String × String))
        (k v : String), reserved_keys.contains k = true →
      wrapper_function_hash sha256_hexdigest func_name args ((k, v) :: kwargs)
          = wrapper_function_hash sha256_hexdigest func_name args kwargs ∧
        forwarded_kwargs ((k, v) :: kwargs) = forwarded_kwargs kwargs) := by
  refine ⟨?_, ?_, ?_⟩
  · intro sha func_name args kw1 kw2 hperm hnodup
    have hsort : sorted_kwargs kw1 = sorted_kwargs kw2 := by
      have hp1 : List.Perm (sorted_kwargs kw1) kw1 :=
        List.perm_insertionSort kwLe kw1
      have hp2 : List.Perm (sorted_kwargs kw2) kw2 :=
        List.perm_insertionSort kwLe kw2
      have hps : List.Perm (sorted_kwargs kw1) (sorted_kwargs kw2) :=
        (hp1.trans hperm).trans hp2.symm
      have hs1 : List.Sorted kwLe (sorted_kwargs kw1) :=
        List.sorted_insertionSort kwLe kw1
      have hs2 : List.Sorted kwLe (sorted_kwargs kw2) :=
        List.sorted_insertionSort kwLe kw2
      have hn1 : ((sorted_kwargs kw1).map Prod.fst).Nodup :=
        ((hp1.map Prod.fst).nodup_iff).mpr hnodup
      have hn2 : ((sorted_kwargs kw2).map Prod.fst).Nodup := by
        have hkw2 : (kw2.map Prod.fst).Nodup :=
          ((hperm.map Prod.fst).nodup_iff).mp hnodup
        exact ((hp2.map Prod.fst).nodup_iff).mpr hkw2
      have hne1 : List.Pairwise
          (fun a b : String × String => a.1 ≠ b.1) (sorted_kwargs kw1) :=
        List.pairwise_map.mp hn1
      have hne2 : List.Pairwise
          (fun a b : String × String => a.1 ≠ b.1) (sorted_kwargs kw2) :=
        List.pairwise_map.mp hn2
      have hstrict1 : List.Pairwise
          (fun a b : String × String => a.1 < b.1) (sorted_kwargs kw1) :=
        (hs1.and hne1).imp (fun h => lt_of_le_of_ne h.1 h.2)
      have hstrict2 : List.Pairwise
          (fun a b : String × String => a.1 < b.1) (sorted_kwargs kw2) :=
        (hs2.and hne2).imp (fun h => lt_of_le_of_ne h.1 h.2)
      haveI : IsAntisymm (String × String)
          (fun a b : String × String => a.1 < b.1) :=
        ⟨fun a b h1 h2 => absurd (lt_trans h1 h2) (lt_irrefl _)⟩
      exact List.eq_of_perm_of_sorted hps hstrict1 hstrict2
    unfold _hash combined_str kwargs_str
    rw [hsort]
  · intro kwargs
    rw [List.all_eq_true]
    intro p hp
    exact (List.mem_filter.mp hp).2
  · intro sha func_name args kwargs k v hk
    have hk2 : k ∈ reserved_keys := by simpa using hk
    constructor
    · unfold wrapper_function_hash forwarded_kwargs filter_keys
      rw [List.filter_cons]
      simp [hk2]
    · unfold forwarded_kwargs filter_keys
      rw [List.filter_cons]
      simp [hk2]

/-- Witness for C9 at a concrete input: swapping two keyword arguments does
not change the hash, and adding the reserved key `cache_branch` changes
neither the wrapper's fingerprint input nor the forwarded keyword set. -/
theorem c9_witness :
    _hash id "f" ["x"] [("b", "2"), ("a", "1")]
      = _hash id "f" ["x"] [("a", "1"), ("b", "2")] ∧
    wrapper_function_hash id "f" ["x"] [("cache_branch", "7"), ("a", "1")]
      = wrapper_function_hash id "f" ["x"] [("a", "1")] ∧
    forwarded_kwargs [("cache_branch", "7"), ("a", "1")]
      = forwarded_kwargs [("a", "1")] := by
  refine ⟨?_, ?_, ?_⟩
  · exact c9_fingerprint_determinism_and_stripping.1 id "f" ["x"]
      [("b", "2"), ("a", "1")] [("a", "1"), ("b", "2")] (by decide) (by decide)
  · exact (c9_fingerprint_determinism_and_stripping.2.2 id "f" ["x"]
      [("a", "1")] "cache_branch" "7" (by decide)).1
  · exact (c9_fingerprint_determinism_and_stripping.2.2 id "f" ["x"]
      [("a", "1")] "cache_branch" "7" (by decide)).2

end DspCache
